import Mathlib

/-!
Verification of the settings-center-app dashboard components.

Shallow embedding of the two components the specification centres on:
- src/settings-dashboard/src/component/UpdateChannel.tsx
- src/settings-dashboard/src/component/SelfCheck.tsx

Stateful React handlers become explicit state transformers that also emit an
ordered trace of UI events (state setters, HTTP requests, notifications), so
that properties about "which requests were issued and in which state" can be
stated directly.  Network calls (`apiRequest`) are stubbed by an
`Except String α` argument holding the outcome of the awaited request.
-/

/-- JS `err.message || fallback`: an empty message string is falsy and is
replaced by the fallback. -/
def orDefault (m fallback : String) : String :=
  if m = "" then fallback else m

/-- Strip leading whitespace characters from a character list. -/
def dropWhileWs : List Char → List Char
  | [] => []
  | ch :: t => if ch.isWhitespace then dropWhileWs t else ch :: t

/-- JS `String.prototype.trim()`: strip whitespace from both ends.
Written by structural recursion on the character list so concrete values
evaluate in the kernel (ASCII whitespace, which covers every use here). -/
def jsTrim (s : String) : String :=
  String.mk ((dropWhileWs (dropWhileWs s.data).reverse).reverse)

/-- The fixed GitHub main-branch archive URL used for the dev channel
(UpdateChannel.tsx line 54 and line 81). -/
def devArchiveUrl : String :=
  "https://github.com/Yundera/template-root/archive/refs/heads/main.zip"

/-- UpdateChannel.tsx line 22: the four update channel types. -/
inductive UpdateChannelType
  | stable
  | dev
  | «local»
  | custom
deriving DecidableEq, Repr

/-- UpdateChannel.tsx lines 24-27: `{ channel, customUrl? }`. -/
structure UpdateChannelConfig where
  channel : UpdateChannelType
  customUrl : Option String := none
deriving DecidableEq, Repr

/-- HTTP method of a stubbed `apiRequest` call. -/
inductive ApiMethod
  | get
  | post
deriving DecidableEq, Repr

/-- One HTTP request as issued by `apiRequest`: endpoint, method, and the
`updateUrl` body field when a body is sent. -/
structure ApiCall where
  endpoint : String
  method : ApiMethod
  body : Option String := none
deriving DecidableEq, Repr

/-- Ordered UI events emitted while a handler runs: React state setters,
issued HTTP requests, and `notify` toasts. -/
inductive UiEvent
  | setLoading (b : Bool)
  | setChecking (b : Bool)
  | setError (e : Option String)
  | request (c : ApiCall)
  | notify (msg : String)
deriving DecidableEq, Repr

/-- The requests issued in a trace, in order. -/
def requestsOf (tr : List UiEvent) : List ApiCall :=
  tr.filterMap fun e =>
    match e with
    | UiEvent.request c => some c
    | _ => none

/-- The GET requests issued in a trace. -/
def getsOf (tr : List UiEvent) : List ApiCall :=
  (requestsOf tr).filter fun c => c.method == ApiMethod.get

/-- Folds a trace tracking the `loading` flag; `true` iff every `request`
event occurs at a point where the tracked flag is `true`. -/
def allRequestsWhileLoading : Bool → List UiEvent → Bool
  | _, [] => true
  | _, UiEvent.setLoading b :: rest => allRequestsWhileLoading b rest
  | l, UiEvent.request _ :: rest => l && allRequestsWhileLoading l rest
  | l, _ :: rest => allRequestsWhileLoading l rest

/-- React state of the `UpdateChannel` component (UpdateChannel.tsx
lines 35-41): `loading`, `error`, `config`, and the `customUrl` text field. -/
structure ChannelViewState where
  loading : Bool
  error : Option String
  config : UpdateChannelConfig
  customUrl : String
deriving DecidableEq, Repr

/-- Initial state of `UpdateChannel` (UpdateChannel.tsx lines 35-41). -/
def initChannelState : ChannelViewState :=
  { loading := false
    error := none
    config := { channel := UpdateChannelType.stable, customUrl := some "" }
    customUrl := "" }

/-- UpdateChannel.tsx lines 45-63, `loadCurrentConfig`: fetch the stored
`updateUrl` (a string or null) and infer the channel by exact match against
the sentinel values; any other non-empty string becomes the custom channel
with that literal as `customUrl`, also pre-filling the text field. -/
def loadCurrentConfig (resp : Except String (Option String))
    (s : ChannelViewState) : ChannelViewState :=
  match resp with
  | Except.error m =>
      { s with error := some (orDefault m "Failed to load update channel configuration") }
  | Except.ok updateUrl =>
      match updateUrl with
      | none => { s with config := { channel := UpdateChannelType.stable } }
      | some u =>
          if u = "" then
            { s with config := { channel := UpdateChannelType.stable } }
          else if u = "local" then
            { s with config := { channel := UpdateChannelType.«local» } }
          else if u = devArchiveUrl then
            { s with config := { channel := UpdateChannelType.dev } }
          else
            { s with config := { channel := UpdateChannelType.custom, customUrl := some u }
                     customUrl := u }

/-- The channel inferred from a stored `updateUrl` value, via
`loadCurrentConfig` run on the initial component state. -/
def inferredChannel (updateUrl : Option String) : UpdateChannelType :=
  (loadCurrentConfig (Except.ok updateUrl) initChannelState).config.channel

/-- UpdateChannel.tsx lines 76-88, `getUpdateUrl`: convert the selected
channel (plus the `customUrl` text-field state) to the URL sent to the
backend. -/
def getUpdateUrl (channel : UpdateChannelType) (customUrl : String) : String :=
  match channel with
  | UpdateChannelType.«local» => "local"
  | UpdateChannelType.dev => devArchiveUrl
  | UpdateChannelType.custom => customUrl
  | UpdateChannelType.stable => ""

/-- UpdateChannel.tsx lines 91-117, `handleSaveChannel`: set loading, clear
the error; reject a custom channel with a blank custom URL before any
request; otherwise POST the URL to /api/admin/update-channel and, on
success, POST to /api/admin/self-check-run; any failure sets the error;
loading is cleared on every path (the `finally`). -/
def handleSaveChannel (postChannel postSelfCheck : Except String Unit)
    (s : ChannelViewState) : ChannelViewState × List UiEvent :=
  let s1 := { s with loading := true, error := none }
  let ev0 := [UiEvent.setLoading true, UiEvent.setError none]
  if s1.config.channel = UpdateChannelType.custom ∧ jsTrim s1.customUrl = "" then
    let msg := "Custom URL is required when using custom channel"
    ({ s1 with error := some msg, loading := false },
     ev0 ++ [UiEvent.setError (some msg), UiEvent.setLoading false])
  else
    let updateUrl := getUpdateUrl s1.config.channel s1.customUrl
    let reqChannel : ApiCall :=
      { endpoint := "/api/admin/update-channel", method := ApiMethod.post, body := some updateUrl }
    match postChannel with
    | Except.error m =>
        let msg := orDefault m "Failed to save update channel"
        ({ s1 with error := some msg, loading := false },
         ev0 ++ [UiEvent.request reqChannel, UiEvent.setError (some msg), UiEvent.setLoading false])
    | Except.ok _ =>
        let reqSelfCheck : ApiCall :=
          { endpoint := "/api/admin/self-check-run", method := ApiMethod.post, body := none }
        match postSelfCheck with
        | Except.error m =>
            let msg := orDefault m "Failed to save update channel"
            ({ s1 with error := some msg, loading := false },
             ev0 ++ [UiEvent.request reqChannel,
                     UiEvent.notify "Update channel saved successfully. Running self-check...",
                     UiEvent.request reqSelfCheck,
                     UiEvent.setError (some msg), UiEvent.setLoading false])
        | Except.ok _ =>
            ({ s1 with loading := false },
             ev0 ++ [UiEvent.request reqChannel,
                     UiEvent.notify "Update channel saved successfully. Running self-check...",
                     UiEvent.request reqSelfCheck,
                     UiEvent.notify "Self-check completed successfully",
                     UiEvent.setLoading false])

example : inferredChannel (some "") = UpdateChannelType.stable := by decide
example : inferredChannel none = UpdateChannelType.stable := by decide
example : inferredChannel (some "local") = UpdateChannelType.«local» := by decide
example : inferredChannel (some devArchiveUrl) = UpdateChannelType.dev := by decide
example : inferredChannel (some "https://x/y.zip") = UpdateChannelType.custom := by decide

/-- Modelled from the spec: the per-script result carried by a status
snapshot, `ScriptResult { success, message, duration? }` (the TypeScript
type lives in the imported module
backend/server/SelfCheck/SelfCheckTypes, which is not part of this
repository slice; fields match both the spec data model and every use in
SelfCheck.tsx). Durations are millisecond counts. -/
structure ScriptResult where
  success : Bool
  message : String
  duration : Option Nat := none
deriving DecidableEq, Repr

/-- Modelled from the spec: the `SelfCheckStatus` snapshot
(`overallStatus`, `isRunning`, optional `lastRun`, optional
`connectionError`, ordered `scripts` mapping).  `overallStatus` is kept as a
string because SelfCheck.tsx switches on it with a default branch. -/
structure SelfCheckStatus where
  overallStatus : String
  isRunning : Bool
  lastRun : Option String := none
  connectionError : Option String := none
  scripts : List (String × ScriptResult) := []
deriving DecidableEq, Repr

/-- React state of the `SelfCheck` component (SelfCheck.tsx lines 29-32). -/
structure SelfCheckViewState where
  loading : Bool
  checking : Bool
  error : Option String
  status : Option SelfCheckStatus
deriving DecidableEq, Repr

/-- Initial state of `SelfCheck` (SelfCheck.tsx lines 29-32). -/
def initSelfCheckState : SelfCheckViewState :=
  { loading := false, checking := false, error := none, status := none }

/-- SelfCheck.tsx lines 36-48, `checkStatus`: set `checking`, clear the
error, GET /api/admin/self-check-status; on success replace the snapshot,
on failure set the error; `checking` is cleared on both paths. -/
def checkStatus (get : Except String SelfCheckStatus)
    (s : SelfCheckViewState) : SelfCheckViewState × List UiEvent :=
  let s1 := { s with checking := true, error := none }
  let ev0 := [UiEvent.setChecking true, UiEvent.setError none,
              UiEvent.request { endpoint := "/api/admin/self-check-status", method := ApiMethod.get }]
  match get with
  | Except.ok st =>
      ({ s1 with status := some st, checking := false },
       ev0 ++ [UiEvent.setChecking false])
  | Except.error m =>
      let msg := orDefault m "Failed to get self-check status"
      ({ s1 with error := some msg, checking := false },
       ev0 ++ [UiEvent.setError (some msg), UiEvent.setChecking false])

/-- SelfCheck.tsx lines 51-64, `handleRunSelfCheck`: set `loading`, clear
the error, POST /api/admin/self-check-run; on success notify and run
`checkStatus` (whose own catch sets the error, so a follow-up failure is
surfaced, not rethrown); on POST failure set the error and skip the
follow-up; `loading` is cleared on every path (the `finally`). -/
def handleRunSelfCheck (post : Except String Unit)
    (get : Except String SelfCheckStatus)
    (s : SelfCheckViewState) : SelfCheckViewState × List UiEvent :=
  let s1 := { s with loading := true, error := none }
  let ev0 := [UiEvent.setLoading true, UiEvent.setError none,
              UiEvent.request { endpoint := "/api/admin/self-check-run", method := ApiMethod.post }]
  match post with
  | Except.ok _ =>
      let r := checkStatus get s1
      ({ r.1 with loading := false },
       ev0 ++ [UiEvent.notify "Self-check completed successfully"]
           ++ r.2 ++ [UiEvent.setLoading false])
  | Except.error m =>
      let msg := orDefault m "Self-check failed"
      ({ s1 with error := some msg, loading := false },
       ev0 ++ [UiEvent.setError (some msg), UiEvent.setLoading false])

/-! ### Status presentation (SelfCheck.tsx render, lines 100-221) -/

/-- Theme constants used by the SelfCheck render
(src/settings-dashboard/src/app/pages/softTheme.ts lines 46-52). -/
def statusSuccessChip : String := "#66dd74"

/-- softTheme.ts line 51: red, critical error. -/
def statusErrorAlt : String := "#f44336"

/-- softTheme.ts line 48: orange, partial results. -/
def statusWarning : String := "#ffa726"

/-- softTheme.ts line 52: blue, informational / never-run. -/
def statusInfo : String := "#29b6f6"

/-- SelfCheck.tsx lines 67-75, `getStatusHexColor`: map `overallStatus`
to the chip colour, with a grey default for unknown values. -/
def getStatusHexColor (overallStatus : String) : String :=
  if overallStatus = "success" then statusSuccessChip
  else if overallStatus = "failure" then statusErrorAlt
  else if overallStatus = "partial" then statusWarning
  else if overallStatus = "never_run" then statusInfo
  else "#bdbdbd"

/-- The two per-script icons the render can show. -/
inductive StatusIcon
  | checkCircle
  | errorIcon
deriving DecidableEq, Repr

/-- SelfCheck.tsx lines 78-84, `getStatusIcon`: a green check iff the
script succeeded, otherwise a red error icon. -/
def getStatusIcon (success : Bool) : StatusIcon :=
  if success then StatusIcon.checkCircle else StatusIcon.errorIcon

/-- SelfCheck.tsx: `(duration / 1000).toFixed(1)` on a millisecond count:
the value rounded to tenths (ECMAScript toFixed rounds an exact tie up),
printed with one digit after the point. -/
def toFixedOne (d : Nat) : String :=
  let t := (d + 50) / 100
  toString (t / 10) ++ "." ++ toString (t % 10)

/-- SelfCheck.tsx lines 86-89, `formatDuration`: a falsy duration (absent
or 0) gives the empty string; below 1000 ms the count with an `ms` suffix;
otherwise seconds to one decimal with an `s` suffix. -/
def formatDuration : Option Nat → String
  | none => ""
  | some d =>
      if d = 0 then ""
      else if d < 1000 then toString d ++ "ms"
      else toFixedOne d ++ "s"

/-- JS truthiness of `result.duration`: present and non-zero. -/
def durationTruthy : Option Nat → Bool
  | none => false
  | some d => d != 0

/-- JS `String.prototype.replace` with a plain single-character pattern:
only the first occurrence is replaced. -/
def replaceFirstChar : List Char → Char → Char → List Char
  | [], _, _ => []
  | ch :: t, a, b => if ch = a then b :: t else ch :: replaceFirstChar t a b

/-- SelfCheck.tsx line 119: the chip label, the overallStatus string with
its first underscore replaced by a space (JS replace with a string pattern
touches only the first match) and uppercased. -/
def chipLabel (overallStatus : String) : String :=
  String.mk ((replaceFirstChar overallStatus.data '_' ' ').map Char.toUpper)

/-- One rendered script row (SelfCheck.tsx lines 175-213): icon from the
script success, name, message, and the duration chip only when
`result.duration` is truthy. -/
structure ScriptRow where
  icon : StatusIcon
  name : String
  message : String
  durationChip : Option String
deriving DecidableEq, Repr

/-- SelfCheck.tsx lines 175-213: how one `scripts` entry renders. -/
def renderScriptRow (name : String) (r : ScriptResult) : ScriptRow :=
  { icon := getStatusIcon r.success
    name := name
    message := r.message
    durationChip :=
      if durationTruthy r.duration then some (formatDuration r.duration) else none }

/-- The visible fragments of the SelfCheck render (SelfCheck.tsx
lines 100-221).  Each field mirrors one conditional block of the JSX. -/
structure RenderedView where
  errorAlert : Option String
  statusChip : Option (String × String)
  runningIndicator : Bool
  busyIndicator : Bool
  lastRunLine : Option String
  connectionAlert : Option String
  scriptsBox : Option (List ScriptRow)
deriving DecidableEq, Repr

/-- SelfCheck.tsx lines 100-221: the render as a pure function of the
component state.  The error alert shows iff `error` is set; the status chip
(label and colour) shows iff a snapshot is present; the running indicator
iff the snapshot has `isRunning`; the button is replaced by a spinner when
`loading || checking || status?.isRunning`; the last-run line and
connection alert show iff those truthy fields are present; the scripts box
shows iff the snapshot has a non-empty `scripts` mapping. -/
def renderSelfCheck (loading checking : Bool) (error : Option String)
    (status : Option SelfCheckStatus) : RenderedView :=
  let isRunning := (status.map (fun st => st.isRunning)).getD false
  { errorAlert := error
    statusChip := status.map fun st =>
      (chipLabel st.overallStatus, getStatusHexColor st.overallStatus)
    runningIndicator := isRunning
    busyIndicator := loading || checking || isRunning
    lastRunLine := status.bind fun st =>
      match st.lastRun with
      | some t => if t = "" then none else some t
      | none => none
    connectionAlert := status.bind fun st =>
      match st.connectionError with
      | some m => if m = "" then none else some m
      | none => none
    scriptsBox := status.bind fun st =>
      if st.scripts.length > 0 then
        some (st.scripts.map fun p => renderScriptRow p.1 p.2)
      else none }

/-! ### Poll scheduler (SelfCheck.tsx lines 92-98)

The `useEffect` runs on mount and again whenever its dependency
`status?.isRunning` changes value; a run first calls `checkStatus()`
(an immediate fetch), then arms a 2000 ms `setInterval` whose closure
captures the dependency value and fetches on each tick only when that
captured value is `true`; the cleanup clears the armed interval before the
next run.  `Option Bool` models `status?.isRunning` (`none` = status is
null, so the optional chain yields undefined). -/

/-- Whether an issued fetch was immediate (effect body `checkStatus()`)
or fired from the 2000 ms interval. -/
inductive FetchKind
  | immediate
  | afterDelay
deriving DecidableEq, Repr

/-- The events driving the poll model: a re-render whose
`status?.isRunning` dependency has value `dep`, or the armed interval
firing after 2000 ms. -/
inductive PollEvent
  | render (dep : Option Bool)
  | tick
deriving DecidableEq, Repr

/-- Poll model state: the dependency value the current effect saw, the
armed interval and the dependency value its closure captured (at most one,
since the cleanup clears it before a re-run), and the log of fetches. -/
structure PollState where
  dep : Option Bool
  interval : Option (Option Bool)
  fetches : List FetchKind
deriving DecidableEq, Repr

/-- One run of the effect body at dependency value `d`: the previous
interval has been cleared by the cleanup; `checkStatus()` issues an
immediate fetch; a fresh interval is armed capturing `d`. -/
def effectRun (d : Option Bool) (s : PollState) : PollState :=
  { dep := d, interval := some d, fetches := s.fetches ++ [FetchKind.immediate] }

/-- One step of the poll model: React re-runs the effect only when the
dependency value changed; a tick fetches only when the armed closure
captured `isRunning = true`. -/
def pollStep (s : PollState) : PollEvent → PollState
  | PollEvent.render d => if d = s.dep then s else effectRun d s
  | PollEvent.tick =>
      match s.interval with
      | some (some true) => { s with fetches := s.fetches ++ [FetchKind.afterDelay] }
      | _ => s

/-- Mount: the initial render has `status = null`, and the effect always
runs on mount. -/
def pollInit : PollState :=
  effectRun none { dep := none, interval := none, fetches := [] }

/-- The poll model run over a sequence of events from mount. -/
def pollRun (evs : List PollEvent) : PollState :=
  evs.foldl pollStep pollInit

example : (pollRun [PollEvent.render (some false)]).fetches
    = [FetchKind.immediate, FetchKind.immediate] := by decide
example : (pollRun [PollEvent.render (some true), PollEvent.tick, PollEvent.tick]).fetches
    = [FetchKind.immediate, FetchKind.immediate, FetchKind.afterDelay, FetchKind.afterDelay] := by
  decide
example : (pollRun [PollEvent.tick]).fetches = [FetchKind.immediate] := by decide

/-- The mutually exclusive display states of the Status Presenter as the
specification lists them (settledMixed is the settled state for a partial
overall result). -/
inductive DisplayState
  | noData
  | errorState
  | running
  | settledSuccess
  | settledFailure
  | settledMixed
  | settledNeverRun
deriving DecidableEq, Repr

/-- Modelled from the spec: the Status Presenter as the specification
describes it — a pure mapping to exactly one display state with precedence
no-data (absent snapshot, no error), then error (error present), then
running (snapshot present and isRunning), then the settled states keyed off
overallStatus. -/
def specPresenter (status : Option SelfCheckStatus) (error : Option String) :
    DisplayState :=
  match status, error with
  | none, none => DisplayState.noData
  | _, some _ => DisplayState.errorState
  | some st, none =>
      if st.isRunning then DisplayState.running
      else if st.overallStatus = "success" then DisplayState.settledSuccess
      else if st.overallStatus = "failure" then DisplayState.settledFailure
      else if st.overallStatus = "partial" then DisplayState.settledMixed
      else DisplayState.settledNeverRun

/-! ### Claim theorems -/

/-- C1: for each of the three non-custom channels, converting the channel
to its URL with getUpdateUrl and inferring the channel back from that URL
is the identity; conversely, inferring a channel from any of the three
sentinel URLs and converting back yields the same URL. -/
theorem channel_url_roundtrip (c : UpdateChannelType) (cu : String)
    (h : c ≠ UpdateChannelType.custom) :
    inferredChannel (some (getUpdateUrl c cu)) = c
  ∧ ∀ u, (u = "" ∨ u = "local" ∨ u = devArchiveUrl) →
      ∀ cu2, getUpdateUrl (inferredChannel (some u)) cu2 = u := by
  constructor
  · cases c with
    | stable => rfl
    | dev => rfl
    | «local» => rfl
    | custom => exact absurd rfl h
  · rintro u (rfl | rfl | rfl) cu2 <;> rfl

/-- Witness for C1 at the dev channel and the local sentinel URL. -/
theorem channel_url_roundtrip_witness :
    inferredChannel (some (getUpdateUrl UpdateChannelType.dev "x")) = UpdateChannelType.dev
  ∧ getUpdateUrl (inferredChannel (some "local")) "y" = "local" :=
  ⟨(channel_url_roundtrip UpdateChannelType.dev "x" (by decide)).1,
   (channel_url_roundtrip UpdateChannelType.dev "x" (by decide)).2 "local"
     (Or.inr (Or.inl rfl)) "y"⟩

/-- C6: any stored URL that is not one of the three sentinels is inferred
as the custom channel with that exact literal as customUrl, the custom-URL
text field is pre-filled with it, and converting back to a URL returns the
same string unchanged. -/
theorem custom_url_inference (u : String) (h1 : ¬ u = "") (h2 : ¬ u = "local")
    (h3 : ¬ u = devArchiveUrl) :
    (loadCurrentConfig (Except.ok (some u)) initChannelState).config
        = { channel := UpdateChannelType.custom, customUrl := some u }
  ∧ (loadCurrentConfig (Except.ok (some u)) initChannelState).customUrl = u
  ∧ getUpdateUrl
      (loadCurrentConfig (Except.ok (some u)) initChannelState).config.channel
      (loadCurrentConfig (Except.ok (some u)) initChannelState).customUrl = u := by
  simp [loadCurrentConfig, h1, h2, h3, getUpdateUrl]

/-- Witness for C6 at a concrete custom URL. -/
theorem custom_url_inference_witness :
    (loadCurrentConfig (Except.ok (some "https://mycustom/repo.zip")) initChannelState).config
        = { channel := UpdateChannelType.custom, customUrl := some "https://mycustom/repo.zip" }
  ∧ (loadCurrentConfig (Except.ok (some "https://mycustom/repo.zip")) initChannelState).customUrl
        = "https://mycustom/repo.zip"
  ∧ getUpdateUrl
      (loadCurrentConfig (Except.ok (some "https://mycustom/repo.zip")) initChannelState).config.channel
      (loadCurrentConfig (Except.ok (some "https://mycustom/repo.zip")) initChannelState).customUrl
        = "https://mycustom/repo.zip" :=
  custom_url_inference "https://mycustom/repo.zip" (by decide) (by decide) (by decide)

/-- C4: saving with the custom channel and a blank (empty or
whitespace-only) custom URL fails validation before any network request:
no HTTP request is issued, the validation error message is set, and the
loading flag is cleared on that early return. -/
theorem save_custom_empty_validation (s : ChannelViewState)
    (post1 post2 : Except String Unit)
    (hc : s.config.channel = UpdateChannelType.custom) (hu : jsTrim s.customUrl = "") :
    requestsOf (handleSaveChannel post1 post2 s).2 = []
  ∧ (handleSaveChannel post1 post2 s).1.error
      = some "Custom URL is required when using custom channel"
  ∧ (handleSaveChannel post1 post2 s).1.loading = false := by
  simp [handleSaveChannel, hc, hu, requestsOf]

/-- Witness for C4 at a whitespace-only custom URL. -/
theorem save_custom_empty_validation_witness :
    requestsOf (handleSaveChannel (Except.ok ()) (Except.ok ())
        { loading := false, error := none,
          config := { channel := UpdateChannelType.custom, customUrl := some "   " },
          customUrl := "   " }).2 = []
  ∧ (handleSaveChannel (Except.ok ()) (Except.ok ())
        { loading := false, error := none,
          config := { channel := UpdateChannelType.custom, customUrl := some "   " },
          customUrl := "   " }).1.error
      = some "Custom URL is required when using custom channel"
  ∧ (handleSaveChannel (Except.ok ()) (Except.ok ())
        { loading := false, error := none,
          config := { channel := UpdateChannelType.custom, customUrl := some "   " },
          customUrl := "   " }).1.loading = false :=
  save_custom_empty_validation _ (Except.ok ()) (Except.ok ()) rfl (by decide)

/-- C5: saving with the dev channel POSTs the fixed GitHub main-branch
archive URL as the updateUrl body to /api/admin/update-channel, and when
that POST succeeds a second, distinct POST to /api/admin/self-check-run
follows as part of the same operation. -/
theorem save_dev_channel (s : ChannelViewState) (post1 post2 : Except String Unit)
    (hc : s.config.channel = UpdateChannelType.dev) :
    (requestsOf (handleSaveChannel post1 post2 s).2).head?
        = some { endpoint := "/api/admin/update-channel", method := ApiMethod.post,
                 body := some devArchiveUrl }
  ∧ (post1 = Except.ok () →
        requestsOf (handleSaveChannel post1 post2 s).2
          = [{ endpoint := "/api/admin/update-channel", method := ApiMethod.post,
               body := some devArchiveUrl },
             { endpoint := "/api/admin/self-check-run", method := ApiMethod.post,
               body := none }]) := by
  have hnc : ¬ (s.config.channel = UpdateChannelType.custom ∧ jsTrim s.customUrl = "") := by
    rw [hc]; rintro ⟨h, -⟩; exact absurd h (by decide)
  rcases post1 with m | u
  · simp [handleSaveChannel, hnc, hc, getUpdateUrl, requestsOf]
  · rcases post2 with m2 | u2 <;>
      simp [handleSaveChannel, hnc, hc, getUpdateUrl, requestsOf]

/-- Witness for C5 at a dev-channel state with both POSTs succeeding. -/
theorem save_dev_channel_witness :
    requestsOf (handleSaveChannel (Except.ok ()) (Except.ok ())
        { loading := false, error := none,
          config := { channel := UpdateChannelType.dev, customUrl := some "" },
          customUrl := "" }).2
      = [{ endpoint := "/api/admin/update-channel", method := ApiMethod.post,
           body := some devArchiveUrl },
         { endpoint := "/api/admin/self-check-run", method := ApiMethod.post,
           body := none }] :=
  (save_dev_channel _ (Except.ok ()) (Except.ok ()) rfl).2 rfl


/-- C3: when the primary POST to /api/admin/self-check-run succeeds,
exactly one follow-up GET of the status is performed and a failure of that
follow-up surfaces its error (the error state becomes the follow-up error
message, not none); when the primary POST fails, the follow-up GET is
skipped and the POST error is surfaced directly. -/
theorem run_selfcheck_followup (s : SelfCheckViewState)
    (post : Except String Unit) (get : Except String SelfCheckStatus) :
    (post = Except.ok () →
        (getsOf (handleRunSelfCheck post get s).2).length = 1
      ∧ ∀ m, get = Except.error m →
          (handleRunSelfCheck post get s).1.error
            = some (orDefault m "Failed to get self-check status"))
  ∧ ∀ m, post = Except.error m →
        (getsOf (handleRunSelfCheck post get s).2).length = 0
      ∧ (handleRunSelfCheck post get s).1.error
          = some (orDefault m "Self-check failed") := by
  rcases post with pm | pu <;> rcases get with gm | gst <;>
    simp [handleRunSelfCheck, checkStatus, getsOf, requestsOf]

/-- Witness for C3: primary POST succeeds, follow-up GET fails. -/
theorem run_selfcheck_followup_witness :
    (getsOf (handleRunSelfCheck (Except.ok ()) (Except.error "boom")
        initSelfCheckState).2).length = 1
  ∧ (handleRunSelfCheck (Except.ok ()) (Except.error "boom")
        initSelfCheckState).1.error = some "boom" := by
  have h := (run_selfcheck_followup initSelfCheckState (Except.ok ())
      (Except.error "boom")).1 rfl
  exact ⟨h.1, h.2 "boom" rfl⟩

/-- C9: for both action triggers, every HTTP request in the emitted event
trace happens while the loading flag is true (the flag is set before any
request), and the flag is false again on every exit path — success, primary
failure, follow-up failure, and the pre-network validation rejection. -/
theorem busy_flag_discipline (s : ChannelViewState) (p1 p2 : Except String Unit)
    (t : SelfCheckViewState) (post : Except String Unit)
    (get : Except String SelfCheckStatus) :
    ((handleSaveChannel p1 p2 s).1.loading = false
      ∧ allRequestsWhileLoading s.loading (handleSaveChannel p1 p2 s).2 = true)
  ∧ ((handleRunSelfCheck post get t).1.loading = false
      ∧ allRequestsWhileLoading t.loading (handleRunSelfCheck post get t).2 = true) := by
  by_cases hv : s.config.channel = UpdateChannelType.custom ∧ jsTrim s.customUrl = "" <;>
    rcases p1 with m1 | u1 <;> rcases p2 with m2 | u2 <;>
    rcases post with pm | pu <;> rcases get with gm | gst <;>
    simp [handleSaveChannel, handleRunSelfCheck, checkStatus, hv,
          allRequestsWhileLoading]

/-- Helper: one poll step preserves the invariant that the armed interval
closure captured exactly the dependency value the current effect saw. -/
theorem pollStep_interval_eq {s : PollState} (h : s.interval = some s.dep)
    (e : PollEvent) : (pollStep s e).interval = some (pollStep s e).dep := by
  cases e with
  | render d =>
      dsimp [pollStep]
      split
      · exact h
      · rfl
  | tick =>
      dsimp [pollStep]
      split <;> exact h

/-- Helper: in every reachable poll state the armed interval closure
captured the current dependency value. -/
theorem pollRun_interval (evs : List PollEvent) :
    (pollRun evs).interval = some (pollRun evs).dep := by
  have key : ∀ (l : List PollEvent) (s : PollState), s.interval = some s.dep →
      (l.foldl pollStep s).interval = some (l.foldl pollStep s).dep := by
    intro l
    induction l with
    | nil => intro s h; exact h
    | cons e t ih => intro s h; exact ih _ (pollStep_interval_eq h e)
  exact key evs pollInit rfl

/-- C2 counterexample: after the initial mount fetch resolves to a snapshot
with isRunning = false, the effect dependency changes from undefined to
false, the effect re-runs, and a second automatic fetch is issued
immediately — two immediate fetches and no delayed one — whereas the claim
allows no automatic fetch beyond the initial mount fetch when the latest
snapshot has isRunning = false, and no fetch before 2000 ms has elapsed. -/
theorem poll_scheduler_counterexample :
    (pollRun [PollEvent.render (some false)]).fetches
      = [FetchKind.immediate, FetchKind.immediate] := by decide

/-- C2 (amended): in every reachable state of the poll model, a 2000 ms
interval tick issues exactly one delayed re-fetch when the latest seen
isRunning flag is true and none otherwise, and at most one interval is
pending; however, every change in the value of the status isRunning
dependency (including the change to false) re-runs the effect, which issues
exactly one additional immediate re-fetch, while an unchanged dependency
issues none. -/
theorem poll_scheduler_amended (evs : List PollEvent) :
    ((pollRun evs).dep = some true →
        pollStep (pollRun evs) PollEvent.tick
          = { pollRun evs with
              fetches := (pollRun evs).fetches ++ [FetchKind.afterDelay] })
  ∧ ((pollRun evs).dep ≠ some true →
        pollStep (pollRun evs) PollEvent.tick = pollRun evs)
  ∧ (∀ d, d ≠ (pollRun evs).dep →
        (pollStep (pollRun evs) (PollEvent.render d)).fetches
          = (pollRun evs).fetches ++ [FetchKind.immediate])
  ∧ (∀ d, d = (pollRun evs).dep →
        pollStep (pollRun evs) (PollEvent.render d) = pollRun evs) := by
  have hI := pollRun_interval evs
  refine ⟨?_, ?_, ?_, ?_⟩
  · intro h
    have hi : (pollRun evs).interval = some (some true) := by rw [hI, h]
    dsimp [pollStep]
    rw [hi]
  · intro h
    dsimp [pollStep]
    rcases hd : (pollRun evs).dep with _ | b
    · rw [hI, hd]
    · cases b
      · rw [hI, hd]
      · exact absurd hd h
  · intro d hd
    dsimp [pollStep]
    rw [if_neg hd]
    rfl
  · intro d hd
    dsimp [pollStep]
    rw [if_pos hd]

/-- Witness for the amended C2 at concrete reachable states: a tick after
the flag became true issues one delayed fetch; a dependency change right
after mount issues one immediate fetch. -/
theorem poll_scheduler_amended_witness :
    pollStep (pollRun [PollEvent.render (some true)]) PollEvent.tick
      = { pollRun [PollEvent.render (some true)] with
          fetches := (pollRun [PollEvent.render (some true)]).fetches
              ++ [FetchKind.afterDelay] }
  ∧ (pollStep (pollRun []) (PollEvent.render (some false))).fetches
      = (pollRun []).fetches ++ [FetchKind.immediate] :=
  ⟨(poll_scheduler_amended [PollEvent.render (some true)]).1 (by decide),
   (poll_scheduler_amended []).2.2.1 (some false) (by decide)⟩

/-- A snapshot that is currently running and has never settled. -/
def runningNeverRunSnapshot : SelfCheckStatus :=
  { overallStatus := "never_run", isRunning := true }

/-- C7 counterexample: with an error present and a running snapshot, the
presenter the specification describes yields the single display state
errorState, but the code render shows the error alert, the running
indicator and the overall-status chip simultaneously — so the render is not
a mapping to exactly one of a set of mutually exclusive display states with
the claimed precedence of error over running and of running over the
settled chip. -/
theorem presenter_counterexample :
    specPresenter (some runningNeverRunSnapshot) (some "network error")
      = DisplayState.errorState
  ∧ (renderSelfCheck false false (some "network error")
        (some runningNeverRunSnapshot)).errorAlert = some "network error"
  ∧ (renderSelfCheck false false (some "network error")
        (some runningNeverRunSnapshot)).runningIndicator = true
  ∧ (renderSelfCheck false false (some "network error")
        (some runningNeverRunSnapshot)).statusChip
      = some ("NEVER RUN", statusInfo) := by decide

/-- C7 (amended): the render derives independent visible fragments rather
than one exclusive display state: the error alert shows iff an error is
present; the status chip shows iff a snapshot is present and carries the
label and colour keyed off overallStatus via getStatusHexColor; the running
indicator shows iff the snapshot has isRunning = true; and with no snapshot
the chip, the running indicator and the scripts box are all absent (the
no-data appearance); these fragments can co-occur. -/
theorem presenter_amended (l c : Bool) (e : Option String)
    (status : Option SelfCheckStatus) :
    ((renderSelfCheck l c e status).errorAlert = e)
  ∧ ((renderSelfCheck l c e status).statusChip.isSome ↔ status.isSome)
  ∧ (∀ st, status = some st →
        (renderSelfCheck l c e status).statusChip
          = some (chipLabel st.overallStatus, getStatusHexColor st.overallStatus)
      ∧ (renderSelfCheck l c e status).runningIndicator = st.isRunning)
  ∧ (status = none →
        (renderSelfCheck l c e status).statusChip = none
      ∧ (renderSelfCheck l c e status).runningIndicator = false
      ∧ (renderSelfCheck l c e status).scriptsBox = none) := by
  rcases status with _ | st <;> simp [renderSelfCheck]

/-- Witness for the amended C7 at a present and an absent snapshot. -/
theorem presenter_amended_witness :
    (renderSelfCheck false false none (some runningNeverRunSnapshot)).statusChip
      = some (chipLabel runningNeverRunSnapshot.overallStatus,
              getStatusHexColor runningNeverRunSnapshot.overallStatus)
  ∧ (renderSelfCheck false false none none).statusChip = none :=
  ⟨((presenter_amended false false none (some runningNeverRunSnapshot)).2.2.1
      runningNeverRunSnapshot rfl).1,
   ((presenter_amended false false none none).2.2.2 rfl).1⟩

/-- C8: each per-script row is derived solely from that script result's
success field — replacing the parent overallStatus leaves every row
unchanged, a row shows the check icon iff success is true and the error
icon otherwise, and a snapshot with overallStatus partial while every
script succeeded is renderable: it shows the partial chip together with
all check icons. -/
theorem script_rows_independent (l c : Bool) (e : Option String)
    (st : SelfCheckStatus) (o : String) :
    ((renderSelfCheck l c e (some { st with overallStatus := o })).scriptsBox
        = (renderSelfCheck l c e (some st)).scriptsBox)
  ∧ (∀ name r, (renderScriptRow name r).icon
        = if r.success then StatusIcon.checkCircle else StatusIcon.errorIcon)
  ∧ (st.overallStatus = "partial" →
        (∀ p ∈ st.scripts, p.2.success = true) →
        (renderSelfCheck l c e (some st)).statusChip = some ("PARTIAL", statusWarning)
      ∧ ∀ row ∈ ((renderSelfCheck l c e (some st)).scriptsBox.getD []),
          row.icon = StatusIcon.checkCircle) := by
  refine ⟨rfl, fun name r => rfl, fun ho hall => ⟨?_, ?_⟩⟩
  · show (some (chipLabel st.overallStatus, getStatusHexColor st.overallStatus) :
        Option (String × String)) = _
    rw [ho]
    decide
  · intro row hrow
    have hrow2 : row ∈ st.scripts.map fun p => renderScriptRow p.1 p.2 := by
      dsimp [renderSelfCheck, Option.bind] at hrow
      split at hrow
      · exact hrow
      · exact absurd hrow (List.not_mem_nil row)
    rcases List.mem_map.mp hrow2 with ⟨p, hp, rfl⟩
    have hs := hall p hp
    simp [renderScriptRow, getStatusIcon, hs]

/-- A snapshot with a partial overall result whose only script succeeded. -/
def partialAllPassSnapshot : SelfCheckStatus :=
  { overallStatus := "partial", isRunning := false,
    scripts := [("disk", { success := true, message := "ok", duration := some 5 })] }

/-- Witness for C8 at a concrete partial snapshot with all scripts
passing. -/
theorem script_rows_independent_witness :
    (renderSelfCheck false false none (some partialAllPassSnapshot)).statusChip
      = some ("PARTIAL", statusWarning)
  ∧ ∀ row ∈ ((renderSelfCheck false false none
        (some partialAllPassSnapshot)).scriptsBox.getD []),
      row.icon = StatusIcon.checkCircle :=
  (script_rows_independent false false none partialAllPassSnapshot "x").2.2 rfl
    (by decide)

/-- C10: the duration chip of a script row is absent exactly when the
duration is absent or exactly zero (formatDuration treats 0 like absent and
returns the empty string); a present duration below 1000 ms formats as the
millisecond count with an ms suffix; from 1000 ms it formats as a tenths
value with one digit after the point and an s suffix, where the printed
tenths value t is the duration over 1000 rounded to one decimal: it
satisfies the bound that t tenths differs from the exact quotient by at
most half a tenth. -/
theorem duration_chip_formatting (name : String) (r : ScriptResult) (d : Nat) :
    ((renderScriptRow name r).durationChip = none ↔
        (r.duration = none ∨ r.duration = some 0))
  ∧ formatDuration none = ""
  ∧ formatDuration (some 0) = ""
  ∧ (0 < d → d < 1000 → formatDuration (some d) = toString d ++ "ms")
  ∧ (1000 ≤ d → ∃ t, formatDuration (some d)
        = toString (t / 10) ++ "." ++ toString (t % 10) ++ "s"
      ∧ 10 * d ≤ 1000 * t + 500 ∧ 1000 * t ≤ 10 * d + 500) := by
  refine ⟨?_, rfl, rfl, ?_, ?_⟩
  · rcases r with ⟨su, msg, _ | dd⟩
    · simp [renderScriptRow, durationTruthy]
    · rcases Nat.eq_zero_or_pos dd with h0 | hpos
      · subst h0; simp [renderScriptRow, durationTruthy]
      · simp [renderScriptRow, durationTruthy, hpos.ne']
  · intro h1 h2
    simp [formatDuration, h1.ne', h2]
  · intro h
    refine ⟨(d + 50) / 100, ?_, ?_, ?_⟩
    · have hne : ¬ d = 0 := by omega
      have hlt : ¬ d < 1000 := by omega
      simp [formatDuration, toFixedOne, hne, hlt]
    · omega
    · omega

/-- Witness for C10 at concrete durations 0, 250 and 1234 ms. -/
theorem duration_chip_formatting_witness :
    ((renderScriptRow "x" { success := true, message := "", duration := some 0 }).durationChip
        = none ↔
      ((some 0 : Option Nat) = none ∨ (some 0 : Option Nat) = some 0))
  ∧ formatDuration (some 250) = toString 250 ++ "ms"
  ∧ ∃ t, formatDuration (some 1234)
        = toString (t / 10) ++ "." ++ toString (t % 10) ++ "s"
      ∧ 10 * 1234 ≤ 1000 * t + 500 ∧ 1000 * t ≤ 10 * 1234 + 500 :=
  ⟨(duration_chip_formatting "x" { success := true, message := "", duration := some 0 } 1234).1,
   (duration_chip_formatting "x" { success := true, message := "", duration := some 0 } 250).2.2.2.1
     (by decide) (by decide),
   (duration_chip_formatting "x" { success := true, message := "", duration := some 0 } 1234).2.2.2.2
     (by decide)⟩
